import Mathlib

/-!
Verification development for the `audio_processor` repository: a straight-line
pipeline AudioSource → Transcriber (Whisper) → TextProcessor (Ollama) →
NotificationPoster (MS Teams webhook).

The definitions below are a shallow embedding of the Python sources:
  * `src/teams_poster.py`   → `postMessage` and the payload builders
  * `src/text_processor.py` → `summarize_text`, `generate_action_items`
  * `src/transcriber.py`    → `transcribe_audio`
  * `src/main.py`           → `runMain` (stages 2–4 of `main()`)
  * `app.py` line 163       → `appTeamsGateShown` (the Streamlit Teams gate)

External effects (the HTTP stack, the Whisper model, the Ollama client, the
filesystem) are modelled as explicit oracle values passed in, and each
embedded function also reports which side effects it performed (whether the
model client was invoked, which HTTP request was issued), so that claims of
the form "no network call is made" are statable.
-/

/-! ## Python string primitives

Models of the Python `str` operations the sources rely on: truthiness
(`not s` ⇔ `s == ""`), `str.isspace`, `str.strip`, `str.lower`, and the
substring test `needle in haystack`. -/

/-- Python whitespace characters recognised by `str.isspace` / `str.strip`
(ASCII range: space, tab, newline, carriage return, vertical tab, form feed). -/
def pyCharIsSpace (c : Char) : Bool :=
  c = ' ' || c = '\t' || c = '\n' || c = '\r' || c = '\x0b' || c = '\x0c'

/-- Python string truthiness: `not s` is true exactly when `s` has no
characters. -/
def pyFalsy (s : String) : Bool :=
  s.data.isEmpty

/-- Python `s.isspace()`: true iff `s` is non-empty and every character is
whitespace. -/
def pyIsSpace (s : String) : Bool :=
  !pyFalsy s && s.data.all pyCharIsSpace

/-- Python `not s or s.isspace()`: the "empty or whitespace-only" test used on
message bodies and prompt inputs. -/
def pyEmptyOrSpace (s : String) : Bool :=
  pyFalsy s || pyIsSpace s

/-- Python `s.strip()`: drop whitespace from both ends. -/
def pyStrip (s : String) : String :=
  ⟨((s.data.dropWhile pyCharIsSpace).reverse.dropWhile pyCharIsSpace).reverse⟩

/-- Python `s.lower()` (ASCII case folding, which covers all strings the
pipeline compares). -/
def pyLower (s : String) : String :=
  ⟨s.data.map Char.toLower⟩

/-- Helper for the Python substring test: does `pat` occur as a contiguous
run inside the character list? -/
def listContainsSub (pat : List Char) : List Char → Bool
  | [] => pat.isEmpty
  | c :: rest => pat.isPrefixOf (c :: rest) || listContainsSub pat rest

/-- Python `pat in hay` on strings: contiguous substring containment. -/
def pyIn (pat hay : String) : Bool :=
  listContainsSub pat.data hay.data

/-- Python `os.path.basename` for POSIX paths: the component after the last
slash (the whole path when it has no slash). -/
def pyBasename (p : String) : String :=
  ⟨(p.data.reverse.takeWhile (fun c => !(c = '/'))).reverse⟩

/-! ## `src/teams_poster.py` — `TeamsPoster.post_message` -/

/-- One element of the adaptive card's `body` array. The title block carries
`weight`/`size` and no `wrap` key; the message block carries `wrap` and no
`weight`/`size`; a `None` title is JSON `null`, hence `text : Option String`. -/
structure TextBlock where
  type : String
  text : Option String
  weight : Option String
  size : Option String
  wrap : Option Bool
  deriving Repr, DecidableEq

/-- The `content` object of the single attachment (`$schema` key modelled as
the `schema` field). -/
structure AdaptiveCardContent where
  schema : String
  type : String
  version : String
  body : List TextBlock
  deriving Repr, DecidableEq

/-- One element of the payload's `attachments` array; `contentUrl` is set to
JSON `null` by the source. -/
structure Attachment where
  contentType : String
  contentUrl : Option String
  content : AdaptiveCardContent
  deriving Repr, DecidableEq

/-- The top-level JSON payload `post_message` serialises. -/
structure TeamsPayload where
  type : String
  attachments : List Attachment
  deriving Repr, DecidableEq

/-- The HTTP request issued by `requests.post(...)` in `post_message`:
method, URL, the `Content-Type` header, the `timeout=10` argument, and the
serialised payload. -/
structure HttpRequest where
  method : String
  url : String
  headerContentType : String
  timeout : Nat
  payload : TeamsPayload
  deriving Repr, DecidableEq

/-- What the network did in response to the POST: either the server produced
a response (status code and body text), or the request failed at transport
level (connection error or timeout — `requests.exceptions.RequestException`). -/
inductive HttpOutcome where
  | response (status : Nat) (body : String)
  | networkError
  deriving Repr, DecidableEq

/-- Which branch of `post_message` produced the result: the empty-message
no-op, the `status == 200 or text == "1"` success, the (unlikely) non-success
response branch, the `raise_for_status()` → `HTTPError` branch, or the
`RequestException` branch. -/
inductive PostBranch where
  | emptyMessage
  | successResponse
  | failResponse
  | httpError
  | requestError
  deriving Repr, DecidableEq

/-- Result of `post_message`: the boolean return value, the HTTP request that
was issued (`none` when no delivery was attempted), and the branch taken. -/
structure PostResult where
  success : Bool
  request : Option HttpRequest
  branch : PostBranch
  deriving Repr, DecidableEq

/-- The `payload` dictionary built by `post_message` (lines 26–52 of
`teams_poster.py`), field for field. -/
def teamsPayload (title : Option String) (messageText : String) : TeamsPayload :=
  { type := "message"
    attachments := [
      { contentType := "application/vnd.microsoft.card.adaptive"
        contentUrl := none
        content :=
          { schema := "http://adaptivecards.io/schemas/adaptive-card.json"
            type := "AdaptiveCard"
            version := "1.4"
            body := [
              { type := "TextBlock", text := title,
                weight := some "bolder", size := some "medium", wrap := none },
              { type := "TextBlock", text := some messageText,
                weight := none, size := none, wrap := some true } ] } } ] }

/-- The `requests.post(self.webhook_url, headers=headers, data=json.dumps(payload),
timeout=10)` call of line 56. -/
def teamsRequest (webhookUrl : String) (title : Option String)
    (messageText : String) : HttpRequest :=
  { method := "POST"
    url := webhookUrl
    headerContentType := "application/json"
    timeout := 10
    payload := teamsPayload title messageText }

/-- `TeamsPoster.post_message` (lines 13–73 of `teams_poster.py`).

* Lines 18–20: an empty or whitespace-only `message_text` returns `False`
  before any payload is built.
* Line 56: otherwise the POST is issued.
* Line 57: `response.raise_for_status()` raises `HTTPError` for any status in
  400–599; the handler at line 66 returns `False`.
* Line 59: success iff `status == 200 or response.text == "1"`.
* Lines 69–72: transport errors (including timeouts) are caught and yield
  `False`; no branch raises to the caller. -/
def postMessage (webhookUrl : String) (title : Option String)
    (messageText : String) (net : HttpOutcome) : PostResult :=
  if pyEmptyOrSpace messageText then
    { success := false, request := none, branch := .emptyMessage }
  else
    let req := teamsRequest webhookUrl title messageText
    match net with
    | .networkError =>
        { success := false, request := some req, branch := .requestError }
    | .response status body =>
        if 400 ≤ status ∧ status < 600 then
          { success := false, request := some req, branch := .httpError }
        else if status = 200 ∨ body = "1" then
          { success := true, request := some req, branch := .successResponse }
        else
          { success := false, request := some req, branch := .failResponse }

/-! ## `src/text_processor.py` — `TextProcessor` -/

/-- What the Ollama client does when `self.client.chat(...)` is called:
return a message content, raise `ollama.ResponseError` (status code + error
text), or raise some other exception (rendered message). -/
inductive OllamaReply where
  | content (text : String)
  | responseError (status : Nat) (err : String)
  | otherError (msg : String)
  deriving Repr, DecidableEq

/-- The result the `except ollama.ResponseError` handler builds:
`f"Error during summarization with Ollama: {e.status_code} - {e.error}"`. -/
def summarizeOllamaErrorMsg (status : Nat) (err : String) : String :=
  "Error during summarization with Ollama: " ++ toString status ++ " - " ++ err

/-- `TextProcessor.summarize_text` (lines 17–43 of `text_processor.py`).
Returns the string result paired with the number of client round-trips
performed. Empty/whitespace input short-circuits before any client call;
otherwise exactly one `chat` call is made and its content is `strip()`ped,
with both exception paths converted to error strings. -/
def summarize_text (text : String) (client : OllamaReply) : String × Nat :=
  if pyEmptyOrSpace text then
    ("Error: Input text is empty, cannot summarize.", 0)
  else
    match client with
    | .content c => (pyStrip c, 1)
    | .responseError status err => (summarizeOllamaErrorMsg status err, 1)
    | .otherError m => ("An unexpected error occurred during summarization: " ++ m, 1)

/-- The result the `except ollama.ResponseError` handler builds:
`f"Error during action item generation with Ollama: {e.status_code} - {e.error}"`. -/
def actionItemsOllamaErrorMsg (status : Nat) (err : String) : String :=
  "Error during action item generation with Ollama: " ++ toString status ++ " - " ++ err

/-- `TextProcessor.generate_action_items` (lines 45–74 of `text_processor.py`),
same shape as `summarize_text`. -/
def generate_action_items (text : String) (client : OllamaReply) : String × Nat :=
  if pyEmptyOrSpace text then
    ("Error: Input text is empty, cannot generate action items.", 0)
  else
    match client with
    | .content c => (pyStrip c, 1)
    | .responseError status err => (actionItemsOllamaErrorMsg status err, 1)
    | .otherError m => ("An unexpected error occurred during action item generation: " ++ m, 1)

/-! ## `src/transcriber.py` — `Transcriber.transcribe_audio` -/

/-- What `self.model.transcribe(path, fp16=False)` does when reached:
produce `result["text"]`, hit a `NameError` (whisper module missing), or
raise some other exception (rendered message, e.g. an ffmpeg failure). -/
inductive WhisperOutcome where
  | text (t : String)
  | nameError
  | failure (e : String)
  deriving Repr, DecidableEq

/-- The message assembled by the generic `except Exception` handler of
`transcribe_audio` (lines 281–288): the rendered exception, with an ffmpeg
installation hint appended when the exception text mentions ffmpeg. -/
def whisperFailureMsg (e : String) : String :=
  let base := "Error during Whisper transcription: " ++ e
  if pyIn "ffmpeg" (pyLower e) then
    base ++ "\nThis might be due to ffmpeg not being installed or not found in PATH."
         ++ "\nPlease install ffmpeg: https://ffmpeg.org/download.html"
  else base

/-- `Transcriber.transcribe_audio` (lines 263–288 of `transcriber.py`).
Returns the string result paired with whether the speech model was invoked.
An unloaded model or a missing file returns an error string before the model
runs (`os.path.exists` is modelled by the `fileExists` oracle). -/
def transcribe_audio (modelLoaded : Bool) (fileExists : String → Bool)
    (audio_file_path : String) (run : WhisperOutcome) : String × Bool :=
  if !modelLoaded then
    ("Error: Whisper model not loaded. Cannot transcribe.", false)
  else if !fileExists audio_file_path then
    ("Error: Audio file " ++ audio_file_path ++ " not found.", false)
  else
    match run with
    | .text t => (t, true)
    | .nameError => ("Error: Whisper library is not installed or failed to import. Cannot transcribe.", true)
    | .failure e => (whisperFailureMsg e, true)

/-! ## `src/main.py` — the orchestrator (stages 2–4 of `main()`) -/

/-- The environment a `main()` run executes in: the audio path chosen in
stage 1, the oracles for the external collaborators, and the user's and
configuration's answers. -/
structure Env where
  audioPath : String
  modelLoaded : Bool
  fileExists : String → Bool
  whisperRun : WhisperOutcome
  summarizeReply : OllamaReply
  actionReply : OllamaReply
  teamsWebhookUrl : Option String
  userConfirms : Bool
  teamsNet : HttpOutcome

/-- The gate of `main.py` line 82:
`if action_items and "Error:" not in action_items and
"No specific action items found" not in action_items:`. -/
def mainTeamsGate (action_items : String) : Bool :=
  !pyFalsy action_items
    && !(pyIn "Error:" action_items)
    && !(pyIn "No specific action items found" action_items)

/-- Outcome of the Teams stage of `main()` (lines 82–107): whether the
yes/no prompt was shown, whether `poster.post_message` was invoked, and the
HTTP request issued, if any. -/
structure TeamsStageResult where
  offered : Bool
  posterCalled : Bool
  request : Option HttpRequest
  deriving Repr, DecidableEq

/-- Stage 4 of `main()` (lines 82–107): the line-82 gate, then the webhook
URL truthiness check, then the interactive confirmation, then the post with
title `f"Action Items from: {os.path.basename(audio_file_to_process)}"`. -/
def teamsStage (env : Env) (action_items : String) : TeamsStageResult :=
  if mainTeamsGate action_items then
    match env.teamsWebhookUrl with
    | some url =>
      if !pyFalsy url then
        if env.userConfirms then
          let res := postMessage url
            (some ("Action Items from: " ++ pyBasename env.audioPath))
            action_items env.teamsNet
          { offered := true, posterCalled := true, request := res.request }
        else
          { offered := true, posterCalled := false, request := none }
      else
        { offered := false, posterCalled := false, request := none }
    | none => { offered := false, posterCalled := false, request := none }
  else
    { offered := false, posterCalled := false, request := none }

/-- Observable trace of one `main()` run: whether a `TextProcessor` was
constructed, the transcript value handed to it, and the Teams stage outcome. -/
structure MainTrace where
  textProcessorCreated : Bool
  transcriptPassed : Option String
  teams : TeamsStageResult
  deriving Repr, DecidableEq

/-- The trace of every early return of `main()`: no `TextProcessor`, no post. -/
def haltTrace : MainTrace :=
  { textProcessorCreated := false, transcriptPassed := none,
    teams := { offered := false, posterCalled := false, request := none } }

/-- Stages 2–4 of `main()` (lines 40–107 of `main.py`).

* Line 46: `if transcriber.model:` — else return.
* Line 49: `if "Error:" in transcript_or_error or not transcript_or_error.strip():`
  — return without reaching `TextProcessor`.
* Line 62: `if not transcript or transcript.isspace():` — skip stages 3–4.
* Lines 69–78: construct `TextProcessor`, call both operations on the
  (unmodified) transcript.
* Lines 82–107: the Teams stage (`teamsStage`). -/
def runMain (env : Env) : MainTrace :=
  if env.modelLoaded then
    let transcript_or_error :=
      (transcribe_audio env.modelLoaded env.fileExists env.audioPath env.whisperRun).fst
    if pyIn "Error:" transcript_or_error || pyFalsy (pyStrip transcript_or_error) then
      haltTrace
    else if pyFalsy transcript_or_error || pyIsSpace transcript_or_error then
      haltTrace
    else
      let _summary := (summarize_text transcript_or_error env.summarizeReply).fst
      let action_items := (generate_action_items transcript_or_error env.actionReply).fst
      { textProcessorCreated := true
        transcriptPassed := some transcript_or_error
        teams := teamsStage env action_items }
  else
    haltTrace

/-! ## `app.py` line 163 — the Streamlit Teams gating expression

`app.py` as shipped fails to parse (line 109 is indented one level deeper
than the 4-space block it belongs to, an `IndentationError`), so the module
never runs; the definition below embeds the gating expression of line 163 as
written, to settle the claims about its classification behaviour:
`if st.session_state.action_items and "Error:" not in st.session_state.action_items
and "No specific action items found" not in st.session_state.action_items.lower():`. -/
def appTeamsGateShown (action_items : String) : Bool :=
  !pyFalsy action_items
    && !(pyIn "Error:" action_items)
    && !(pyIn "No specific action items found" (pyLower action_items))

/-! ## Lemmas about the Python string primitives -/

/-- A list is a prefix of itself followed by anything. -/
theorem isPrefixOf_append_self (p r : List Char) : p.isPrefixOf (p ++ r) = true := by
  induction p with
  | nil => cases r <;> rfl
  | cons c cs ih => simp [List.isPrefixOf, ih]

/-- The empty pattern occurs in every list. -/
theorem listContainsSub_nil_pat (hay : List Char) : listContainsSub [] hay = true := by
  cases hay <;> simp [listContainsSub, List.isPrefixOf]

/-- A pattern occurs in any list that carries it as a contiguous run. -/
theorem listContainsSub_append (pat l r : List Char) :
    listContainsSub pat (l ++ (pat ++ r)) = true := by
  induction l with
  | nil =>
    cases pat with
    | nil => simpa using listContainsSub_nil_pat r
    | cons c cs => simp [listContainsSub, List.isPrefixOf, isPrefixOf_append_self]
  | cons a l' ih => simp [listContainsSub, ih]

/-- Python `pat in (a + pat + b)` is always true. -/
theorem pyIn_append_three (pat a b : String) : pyIn pat (a ++ pat ++ b) = true := by
  unfold pyIn
  have h : (a ++ pat ++ b).data = a.data ++ (pat.data ++ b.data) := by
    simp [String.data_append]
  rw [h]
  exact listContainsSub_append _ _ _

/-- Python `pat in (pat + b)` is always true. -/
theorem pyIn_prefix_append (pat b : String) : pyIn pat (pat ++ b) = true := by
  unfold pyIn
  have h : (pat ++ b).data = [] ++ (pat.data ++ b.data) := by
    simp [String.data_append]
  rw [h]
  exact listContainsSub_append _ _ _

/-- Stripping an empty or whitespace-only string yields the empty string. -/
theorem pyStrip_falsy_of_emptyOrSpace {s : String} (h : pyEmptyOrSpace s = true) :
    pyFalsy (pyStrip s) = true := by
  have hdrop : s.data.dropWhile pyCharIsSpace = [] := by
    rcases Bool.or_eq_true_iff.mp h with hf | hsp
    · have : s.data = [] := List.isEmpty_iff.mp hf
      simp [this]
    · have hall : s.data.all pyCharIsSpace = true :=
        (Bool.and_eq_true_iff.mp hsp).2
      exact List.dropWhile_eq_nil_iff.mpr (fun x hx => List.all_eq_true.mp hall x hx)
  simp [pyStrip, pyFalsy, hdrop]

/-- A string whose stripped form is non-empty is itself non-empty and not
whitespace-only. -/
theorem not_emptyOrSpace_of_strip {s : String} (h : pyFalsy (pyStrip s) = false) :
    pyEmptyOrSpace s = false := by
  cases he : pyEmptyOrSpace s
  · rfl
  · exact absurd (pyStrip_falsy_of_emptyOrSpace he) (by simp [h])

/-- String append is associative (needed to re-bracket error-message
concatenations). -/
theorem strAppendAssoc (a b c : String) : (a ++ b) ++ c = a ++ (b ++ c) := by
  apply String.ext
  simp [String.data_append]

/-- Whenever the body is non-empty and not whitespace-only, `post_message`
issues exactly the request built by `teamsRequest`, whatever the network
then does. -/
theorem postMessage_request_eq (url : String) (title : Option String)
    (msg : String) (net : HttpOutcome) (h : pyEmptyOrSpace msg = false) :
    (postMessage url title msg net).request = some (teamsRequest url title msg) := by
  cases net with
  | networkError => simp [postMessage, h]
  | response status body =>
    by_cases h4 : 400 ≤ status ∧ status < 600
    · simp [postMessage, h, h4]
    · by_cases hs : status = 200 ∨ body = "1" <;> simp [postMessage, h, h4, hs]

/-! ## Claims -/

/-- C1 (amended): for a non-empty, non-whitespace body, `post_message`
returns true iff the server responded with a status outside 400–599 and
(the status is 200 or the raw body is exactly "1"); `raise_for_status()`
turns every 4xx/5xx response — even one whose body is "1" — into `False`,
as it does every network failure or timeout, and no path raises to the
caller. -/
theorem teams_post_success_iff (url : String) (title : Option String)
    (msg : String) (net : HttpOutcome) (h : pyEmptyOrSpace msg = false) :
    (postMessage url title msg net).success = true ↔
      ∃ status body, net = HttpOutcome.response status body ∧
        ¬(400 ≤ status ∧ status < 600) ∧ (status = 200 ∨ body = "1") := by
  cases net with
  | networkError => simp [postMessage, h]
  | response status body =>
    by_cases h4 : 400 ≤ status ∧ status < 600
    · simp [postMessage, h, h4]
    · by_cases hs : status = 200 ∨ body = "1"
      · simp [postMessage, h, h4, hs]
        exact ⟨status, body, ⟨rfl, rfl⟩, by omega, hs⟩
      · simp [postMessage, h, h4, hs]
        exact fun _ => ⟨fun hc => hs (Or.inl hc), fun hc => hs (Or.inr hc)⟩

/-- C1 (counterexample to the claim as stated): a 404 response whose raw
body is exactly "1" is not a success — `raise_for_status()` raises before
the body check — so "body `"1"` succeeds regardless of status" is false. -/
theorem teams_post_body_one_on_404_fails_claim :
    ¬(((postMessage "https://example.com/webhook" (some "Title") "hello"
        (HttpOutcome.response 404 "1")).success = true) ↔
      (404 = 200 ∨ ("1" : String) = "1")) := by
  decide

/-- C1 witness: the amended equivalence instantiated at a 200/"ok" exchange. -/
theorem teams_post_success_iff_witness :
    pyEmptyOrSpace "hello" = false ∧
    ((postMessage "https://example.com/webhook" (some "Title") "hello"
        (HttpOutcome.response 200 "ok")).success = true ↔
      ∃ status body, HttpOutcome.response 200 "ok" = HttpOutcome.response status body ∧
        ¬(400 ≤ status ∧ status < 600) ∧ (status = 200 ∨ body = "1")) :=
  ⟨by decide, teams_post_success_iff _ _ _ _ (by decide)⟩

/-- C7: an empty or whitespace-only message body makes `post_message` a
no-op: it returns `False` through the dedicated "nothing to post" branch,
builds no payload and issues no HTTP request. -/
theorem teams_post_empty_body_noop (url : String) (title : Option String)
    (msg : String) (net : HttpOutcome) (h : pyEmptyOrSpace msg = true) :
    postMessage url title msg net =
      { success := false, request := none, branch := PostBranch.emptyMessage } := by
  simp [postMessage, h]

/-- C7 witness: the no-op at a whitespace-only body. -/
theorem teams_post_empty_body_noop_witness :
    pyEmptyOrSpace "   " = true ∧
    postMessage "https://example.com/webhook" (some "Title") "   "
        (HttpOutcome.response 200 "1") =
      { success := false, request := none, branch := PostBranch.emptyMessage } :=
  ⟨by decide, teams_post_empty_body_noop _ _ _ _ (by decide)⟩

/-- C8: every message actually sent is an HTTP POST with header
`Content-Type: application/json`, a 10-second timeout, and the adaptive-card
payload `{type: "message", attachments: [{contentType:
"application/vnd.microsoft.card.adaptive", content: {type: "AdaptiveCard",
version: "1.4", body: [bold medium title TextBlock, wrapped body
TextBlock]}}]}` (the source additionally sets `contentUrl: null` and a
`$schema` URL inside the same shape). -/
theorem teams_post_request_shape (url : String) (title : Option String)
    (msg : String) (net : HttpOutcome) (h : pyEmptyOrSpace msg = false) :
    (postMessage url title msg net).request = some (teamsRequest url title msg) ∧
    (teamsRequest url title msg).method = "POST" ∧
    (teamsRequest url title msg).headerContentType = "application/json" ∧
    (teamsRequest url title msg).timeout = 10 ∧
    (teamsRequest url title msg).payload.type = "message" ∧
    ((teamsRequest url title msg).payload.attachments.map fun a => a.contentType)
      = ["application/vnd.microsoft.card.adaptive"] ∧
    ((teamsRequest url title msg).payload.attachments.map fun a => a.content.type)
      = ["AdaptiveCard"] ∧
    ((teamsRequest url title msg).payload.attachments.map fun a => a.content.version)
      = ["1.4"] ∧
    ((teamsRequest url title msg).payload.attachments.map fun a => a.content.body)
      = [[{ type := "TextBlock", text := title, weight := some "bolder",
            size := some "medium", wrap := none },
          { type := "TextBlock", text := some msg, weight := none, size := none,
            wrap := some true }]] :=
  ⟨postMessage_request_eq url title msg net h, rfl, rfl, rfl, rfl, rfl, rfl, rfl, rfl⟩

/-- C8 witness: the request issued for a concrete body. -/
theorem teams_post_request_shape_witness :
    pyEmptyOrSpace "do the thing" = false ∧
    (postMessage "https://example.com/webhook" (some "Action Items") "do the thing"
        HttpOutcome.networkError).request =
      some (teamsRequest "https://example.com/webhook" (some "Action Items") "do the thing") :=
  ⟨by decide, (teams_post_request_shape _ _ _ _ (by decide)).1⟩

/-- The first element of the card's `body` array inside the (single)
attachment of a payload. -/
def firstCardBlock (p : TeamsPayload) : Option TextBlock :=
  p.attachments.head?.bind fun a => a.content.body.head?

/-- C10: `post_message` never validates the title — for every title value
(`none` models Python `None`) paired with a non-empty non-whitespace body,
the HTTP delivery is attempted and the title appears verbatim as the `text`
of the first (bold, medium) TextBlock of the card; only the body controls
the no-op path. -/
theorem teams_post_title_unvalidated (url : String) (title : Option String)
    (msg : String) (net : HttpOutcome) (h : pyEmptyOrSpace msg = false) :
    (postMessage url title msg net).request = some (teamsRequest url title msg) ∧
    firstCardBlock (teamsPayload title msg) =
      some { type := "TextBlock", text := title, weight := some "bolder",
             size := some "medium", wrap := none } :=
  ⟨postMessage_request_eq url title msg net h, rfl⟩

/-- C10 witness: a Python-`None` title is embedded and still posted. -/
theorem teams_post_title_unvalidated_witness :
    pyEmptyOrSpace "some body" = false ∧
    ((postMessage "https://example.com/webhook" none "some body"
        (HttpOutcome.response 200 "1")).request =
      some (teamsRequest "https://example.com/webhook" none "some body") ∧
    firstCardBlock (teamsPayload none "some body") =
      some { type := "TextBlock", text := none, weight := some "bolder",
             size := some "medium", wrap := none }) :=
  ⟨by decide, teams_post_title_unvalidated _ _ _ _ (by decide)⟩

/-- C4: for every empty or whitespace-only input, `summarize_text` and
`generate_action_items` return their "Error:"-tagged empty-input strings and
perform zero round-trips to the Ollama client. -/
theorem text_processor_rejects_empty_input (text : String) (c1 c2 : OllamaReply)
    (h : pyEmptyOrSpace text = true) :
    summarize_text text c1 = ("Error: Input text is empty, cannot summarize.", 0) ∧
    generate_action_items text c2 =
      ("Error: Input text is empty, cannot generate action items.", 0) ∧
    "Error:".data.isPrefixOf (summarize_text text c1).fst.data = true ∧
    "Error:".data.isPrefixOf (generate_action_items text c2).fst.data = true := by
  have h1 : summarize_text text c1 =
      ("Error: Input text is empty, cannot summarize.", 0) := by
    simp [summarize_text, h]
  have h2 : generate_action_items text c2 =
      ("Error: Input text is empty, cannot generate action items.", 0) := by
    simp [generate_action_items, h]
  refine ⟨h1, h2, ?_, ?_⟩
  · rw [h1]; decide
  · rw [h2]; decide

/-- C4 witness: the empty-input rejection at a whitespace-only transcript. -/
theorem text_processor_rejects_empty_input_witness :
    pyEmptyOrSpace " " = true ∧
    (summarize_text " " (OllamaReply.content "x") =
      ("Error: Input text is empty, cannot summarize.", 0) ∧
    generate_action_items " " (OllamaReply.responseError 500 "boom") =
      ("Error: Input text is empty, cannot generate action items.", 0) ∧
    "Error:".data.isPrefixOf (summarize_text " " (OllamaReply.content "x")).fst.data = true ∧
    "Error:".data.isPrefixOf
      (generate_action_items " " (OllamaReply.responseError 500 "boom")).fst.data = true) :=
  ⟨by decide, text_processor_rejects_empty_input _ _ _ (by decide)⟩

/-- C5: when the model is loaded but no file exists at the given path,
`transcribe_audio` returns an error string that carries both the "Error:"
tag and the offending path, without invoking the speech model, and the
`main()` run halts with the early-return trace — no `TextProcessor` is
constructed and nothing is posted. -/
theorem missing_audio_file_halts_pipeline (env : Env)
    (hm : env.modelLoaded = true)
    (hf : env.fileExists env.audioPath = false) :
    pyIn "Error:"
      (transcribe_audio env.modelLoaded env.fileExists env.audioPath env.whisperRun).fst = true ∧
    pyIn env.audioPath
      (transcribe_audio env.modelLoaded env.fileExists env.audioPath env.whisperRun).fst = true ∧
    (transcribe_audio env.modelLoaded env.fileExists env.audioPath env.whisperRun).snd = false ∧
    runMain env = haltTrace := by
  have hres : transcribe_audio true env.fileExists env.audioPath env.whisperRun
      = ("Error: Audio file " ++ env.audioPath ++ " not found.", false) := by
    simp [transcribe_audio, hf]
  have hpath : pyIn env.audioPath
      ("Error: Audio file " ++ env.audioPath ++ " not found.") = true :=
    pyIn_append_three _ _ _
  have herr : pyIn "Error:"
      ("Error: Audio file " ++ env.audioPath ++ " not found.") = true := by
    have hsplit : ("Error: Audio file " : String) = "Error:" ++ " Audio file " := by decide
    rw [hsplit, strAppendAssoc, strAppendAssoc]
    exact pyIn_prefix_append _ _
  refine ⟨?_, ?_, ?_, ?_⟩
  · rw [hm, hres]; exact herr
  · rw [hm, hres]; exact hpath
  · rw [hm, hres]
  · simp [runMain, hm, hres, herr]

/-- C5 witness: the halt at a concrete missing path. -/
def envC5 : Env :=
  { audioPath := "missing.wav", modelLoaded := true, fileExists := fun _ => false,
    whisperRun := .text "unreached", summarizeReply := .content "s",
    actionReply := .content "a", teamsWebhookUrl := some "https://example.com/webhook",
    userConfirms := true, teamsNet := .response 200 "1" }

/-- C5 witness: the theorem applied to `envC5`. -/
theorem missing_audio_file_halts_pipeline_witness :
    envC5.modelLoaded = true ∧ envC5.fileExists envC5.audioPath = false ∧
    (pyIn "Error:"
        (transcribe_audio envC5.modelLoaded envC5.fileExists envC5.audioPath envC5.whisperRun).fst = true ∧
      pyIn envC5.audioPath
        (transcribe_audio envC5.modelLoaded envC5.fileExists envC5.audioPath envC5.whisperRun).fst = true ∧
      (transcribe_audio envC5.modelLoaded envC5.fileExists envC5.audioPath envC5.whisperRun).snd = false ∧
      runMain envC5 = haltTrace) :=
  ⟨rfl, rfl, missing_audio_file_halts_pipeline envC5 rfl rfl⟩

/-- A `main()` environment whose recognised text carries leading and
trailing whitespace — the usual shape of Whisper output. -/
def envC6 : Env :=
  { audioPath := "a.wav", modelLoaded := true, fileExists := fun _ => true,
    whisperRun := .text "  hi  ", summarizeReply := .content "s",
    actionReply := .content "No specific action items found",
    teamsWebhookUrl := none, userConfirms := false, teamsNet := .networkError }

/-- C6 (counterexample to the claim as stated): the recognised text
`"  hi  "` is handed to the `TextProcessor` with its padding intact — its
first character is a space — so the value consumed downstream is not
trimmed; `main.py` calls `.strip()` only inside the emptiness test of
line 49. -/
theorem transcript_not_trimmed_at_consumption :
    (runMain envC6).transcriptPassed = some "  hi  " ∧
    "  hi  ".data.head? = some ' ' := by
  decide

/-- C6 (amended): for every successful transcription, the transcript handed
to the `TextProcessor` is the recognised text verbatim, possibly with
leading/trailing whitespace; the stripped copy is used only to test for
emptiness at line 49 and is then discarded. -/
theorem transcript_passed_verbatim (env : Env) (t : String)
    (hm : env.modelLoaded = true)
    (hf : env.fileExists env.audioPath = true)
    (hr : env.whisperRun = WhisperOutcome.text t)
    (he : pyIn "Error:" t = false)
    (hs : pyFalsy (pyStrip t) = false) :
    (runMain env).transcriptPassed = some t := by
  have hres : transcribe_audio true env.fileExists env.audioPath env.whisperRun = (t, true) := by
    simp [transcribe_audio, hf, hr]
  have hnes : pyEmptyOrSpace t = false := not_emptyOrSpace_of_strip hs
  have hsplit : pyFalsy t = false ∧ pyIsSpace t = false := by
    unfold pyEmptyOrSpace at hnes
    exact Bool.or_eq_false_iff.mp hnes
  simp [runMain, hm, hres, he, hs, hsplit.1, hsplit.2]

/-- C6 witness: the amended statement applied to `envC6`. -/
theorem transcript_passed_verbatim_witness :
    envC6.modelLoaded = true ∧ envC6.fileExists envC6.audioPath = true ∧
    envC6.whisperRun = WhisperOutcome.text "  hi  " ∧
    pyIn "Error:" "  hi  " = false ∧ pyFalsy (pyStrip "  hi  ") = false ∧
    (runMain envC6).transcriptPassed = some "  hi  " :=
  ⟨rfl, rfl, rfl, by decide, by decide,
    transcript_passed_verbatim envC6 "  hi  " rfl rfl rfl (by decide) (by decide)⟩

/-- C2: both orchestrators misclassify the "No specific action items found"
sentinel rather than matching it case-insensitively. `main.py` line 82
matches the exact capitalisation only, so the lower-case rendering
`"no specific action items found."` passes the gate and is offered for
posting; `app.py` line 163 lowercases the haystack but not the needle — a
needle with capital letters can never occur in a lowercased string — so even
the exact sentinel passes the Streamlit gate and the Teams posting section
is shown for it. -/
theorem sentinel_misclassified_by_gates :
    mainTeamsGate "no specific action items found." = true ∧
    appTeamsGateShown "No specific action items found" = true := by
  decide

/-- A `main()` environment in which action-item generation fails with
`ollama.ResponseError` (status 404), a webhook is configured and the user
confirms the post. -/
def envC3 : Env :=
  { audioPath := "meeting.wav", modelLoaded := true, fileExists := fun _ => true,
    whisperRun := .text "Discuss the budget.", summarizeReply := .content "A summary.",
    actionReply := .responseError 404 "model not found",
    teamsWebhookUrl := some "https://example.com/webhook", userConfirms := true,
    teamsNet := .response 200 "1" }

/-- C3: the error string a failed (ResponseError) action-item call produces
— `"Error during action item generation with Ollama: 404 - model not
found"` — does not contain the `"Error:"` marker the line-82 gate checks, so
the orchestrator fails to detect the failure and posts the error text to
Teams. -/
theorem ollama_error_result_slips_gate_and_posts :
    pyIn "Error:" (actionItemsOllamaErrorMsg 404 "model not found") = false ∧
    (runMain envC3).teams.request =
      some (teamsRequest "https://example.com/webhook"
        (some "Action Items from: meeting.wav")
        (actionItemsOllamaErrorMsg 404 "model not found")) := by
  decide
